import Mathlib

/-!
Verification of the go-ipset wrapper (src/ipset.go).

The Go package is a thin wrapper around the external `ipset` binary: each
method builds an argument vector, spawns the binary, captures stdout and
stderr, and surfaces a non-zero exit (or a failure to start) as an error
whose message is the captured stderr text.

The subprocess-execution facility (`exec.Cmd.Run`) is modelled as an oracle
`exec : List String → ExecBehavior`, mapping the full argument vector
(argv[0] = binary path, as built on line 130 of the source) to what the
child process does: its exit outcome and the text it writes to its two
streams.  A process that fails to start writes nothing, so the captured
buffers stay empty in that case.  `exec.LookPath` is likewise modelled as
an oracle `String → Except String String`.

String helpers (`strings.Split`, `strings.TrimSpace`) are embedded
directly over `List Char` so that everything evaluates in the kernel.
-/

/-- Character class of Go's `unicode.IsSpace` (White_Space property):
'\t', '\n', '\v', '\f', '\r', ' ', U+0085, U+00A0, U+1680, U+2000–U+200A,
U+2028, U+2029, U+202F, U+205F, U+3000. -/
def goIsSpace (c : Char) : Bool :=
  c = ' ' || c = '\t' || c = '\n' || c = '\x0B' || c = '\x0C' || c = '\r' ||
  c = '\u0085' || c = '\u00A0' || c = '\u1680' ||
  ('\u2000' ≤ c && c ≤ '\u200A') ||
  c = '\u2028' || c = '\u2029' || c = '\u202F' || c = '\u205F' || c = '\u3000'

/-- Go `strings.TrimSpace`: drop leading and trailing white space. -/
def trimSpace (s : String) : String :=
  String.mk (((s.data.dropWhile goIsSpace).reverse.dropWhile goIsSpace).reverse)

/-- Splitting a character list at every occurrence of `sep`
(the single-character case of Go `strings.Split`). -/
def splitCharAux (sep : Char) : List Char → List (List Char)
  | [] => [[]]
  | c :: cs =>
    let r := splitCharAux sep cs
    if c = sep then [] :: r
    else
      match r with
      | [] => [[c]]
      | h :: t => (c :: h) :: t

/-- Go `strings.Split s sep` for a one-character separator:
`goSplit "" sep = [""]`, `goSplit "a\nb\n" '\n' = ["a", "b", ""]`. -/
def goSplit (s : String) (sep : Char) : List String :=
  (splitCharAux sep s.data).map String.mk

/-- Exit outcome of one spawn attempt: the process ran and exited with the
given status code, or it could not be started at all. -/
inductive ExecOutcome where
  | exited (code : Nat)
  | startFailed
deriving DecidableEq

/-- What the child process would do for a given argument vector: its exit
outcome and the bytes it writes to stdout and stderr while running. -/
structure ExecBehavior where
  outcome : ExecOutcome
  procStdout : String
  procStderr : String
deriving DecidableEq

/-- Text captured in the stdout buffer: empty when the process never
started (the `bytes.Buffer` of ipset.go line 127 is never written to). -/
def ExecBehavior.stdoutText (b : ExecBehavior) : String :=
  match b.outcome with
  | .startFailed => ""
  | _ => b.procStdout

/-- Text captured in the stderr buffer: empty when the process never
started. -/
def ExecBehavior.stderrText (b : ExecBehavior) : String :=
  match b.outcome with
  | .startFailed => ""
  | _ => b.procStderr

/-- The `IPSet` struct of ipset.go lines 13–16: resolved binary path and a
list of default options. -/
structure IPSet where
  Path : String
  Options : List String
deriving DecidableEq

/-- `New` (ipset.go lines 18–25): look up the `ipset` binary; on lookup
failure return the lookup error and no handle, otherwise a handle wrapping
the resolved path and an empty options list.  `exec.LookPath` is the
oracle argument. -/
def New (lookPath : String → Except String String) : Except String IPSet :=
  match lookPath "ipset" with
  | .error e => .error e
  | .ok binPath => .ok ⟨binPath, []⟩

/-- `(*IPSet).run` (ipset.go lines 126–140): build
`Args = [set.Path] ++ args`, run the command, and return the captured
stdout buffer together with `errors.New(stderr.String())` when `cmd.Run`
reports an error (non-zero exit or failure to start), `nil` otherwise. -/
def IPSet.run (set : IPSet) (exec : List String → ExecBehavior)
    (args : List String) : String × Option String :=
  let b := exec (set.Path :: args)
  match b.outcome with
  | .exited 0 => (b.stdoutText, none)
  | _ => (b.stdoutText, some b.stderrText)

/-- `Create` (ipset.go lines 34–37). -/
def IPSet.Create (set : IPSet) (exec : List String → ExecBehavior)
    (name typ : String) (options : List String) : Option String :=
  (set.run exec (["create", name, typ] ++ options)).2

/-- `Add` (ipset.go lines 40–43). -/
def IPSet.Add (set : IPSet) (exec : List String → ExecBehavior)
    (name entry : String) (options : List String) : Option String :=
  (set.run exec (["add", name, entry] ++ options)).2

/-- `AddUnique` (ipset.go lines 46–49). -/
def IPSet.AddUnique (set : IPSet) (exec : List String → ExecBehavior)
    (name entry : String) (options : List String) : Option String :=
  (set.run exec (["add", name, entry, "-exist"] ++ options)).2

/-- `Delete` (ipset.go lines 52–55). -/
def IPSet.Delete (set : IPSet) (exec : List String → ExecBehavior)
    (name entry : String) (options : List String) : Option String :=
  (set.run exec (["del", name, entry] ++ options)).2

/-- `Test` (ipset.go lines 60–63). -/
def IPSet.Test (set : IPSet) (exec : List String → ExecBehavior)
    (name entry : String) (options : List String) : Option String :=
  (set.run exec (["test", name, entry] ++ options)).2

/-- `Destroy` (ipset.go lines 66–69). -/
def IPSet.Destroy (set : IPSet) (exec : List String → ExecBehavior)
    (name : String) : Option String :=
  (set.run exec ["destroy", name]).2

/-- `Save` (ipset.go lines 72–75). -/
def IPSet.Save (set : IPSet) (exec : List String → ExecBehavior)
    (name filename : String) : Option String :=
  (set.run exec ["save", name, "-file", filename]).2

/-- `Restore` (ipset.go lines 78–81). -/
def IPSet.Restore (set : IPSet) (exec : List String → ExecBehavior)
    (filename : String) : Option String :=
  (set.run exec ["restore", "-file", filename]).2

/-- `Flush` (ipset.go lines 84–87). -/
def IPSet.Flush (set : IPSet) (exec : List String → ExecBehavior)
    (name : String) : Option String :=
  (set.run exec ["flush", name]).2

/-- `Rename` (ipset.go lines 90–93). -/
def IPSet.Rename (set : IPSet) (exec : List String → ExecBehavior)
    (src dst : String) : Option String :=
  (set.run exec ["rename", src, dst]).2

/-- `Swap` (ipset.go lines 96–99). -/
def IPSet.Swap (set : IPSet) (exec : List String → ExecBehavior)
    (src dst : String) : Option String :=
  (set.run exec ["swap", src, dst]).2

/-- Index of the first line whose trimmed content is `"Members:"`, as an
option; models the `for ... if ... break` scan of ipset.go lines 105–110. -/
def findMembersLine : List String → Option Nat
  | [] => none
  | l :: rest =>
    if trimSpace l = "Members:" then some 0
    else (findMembersLine rest).map (· + 1)

/-- `List` (ipset.go lines 101–124), named `list` because `List` would
shadow the core list type.  `start` is the scan result defaulting to 0
(`var start int`); when fewer than `start + 2` lines exist the method
returns `nil, err`; otherwise the non-blank lines strictly after `start`
are the members, returned together with the run error. -/
def IPSet.list (set : IPSet) (exec : List String → ExecBehavior)
    (name : String) : List String × Option String :=
  let r := set.run exec ["list", name]
  let lines := goSplit r.1 '\n'
  let start := (findMembersLine lines).getD 0
  if lines.length ≤ start + 1 then ([], r.2)
  else ((lines.drop (start + 1)).filter (fun l => trimSpace l != ""), r.2)

/-! ### Argument-vector shapes as given by the §6 table of the spec -/

/-- §6 table: `create <name> <type> [opts...]`. -/
def shapeCreate (name typ : String) (opts : List String) : List String :=
  "create" :: name :: typ :: opts

/-- §6 table: `add <name> <entry> [opts...]`. -/
def shapeAdd (name entry : String) (opts : List String) : List String :=
  "add" :: name :: entry :: opts

/-- §6 table: `add <name> <entry> -exist [opts...]`. -/
def shapeAddUnique (name entry : String) (opts : List String) : List String :=
  "add" :: name :: entry :: "-exist" :: opts

/-- §6 table: `del <name> <entry> [opts...]`. -/
def shapeDelete (name entry : String) (opts : List String) : List String :=
  "del" :: name :: entry :: opts

/-- §6 table: `test <name> <entry> [opts...]`. -/
def shapeTest (name entry : String) (opts : List String) : List String :=
  "test" :: name :: entry :: opts

/-- §6 table: `destroy <name>`. -/
def shapeDestroy (name : String) : List String := ["destroy", name]

/-- §6 table: `save <name> -file <filename>`. -/
def shapeSave (name filename : String) : List String :=
  ["save", name, "-file", filename]

/-- §6 table: `restore -file <filename>`. -/
def shapeRestore (filename : String) : List String :=
  ["restore", "-file", filename]

/-- §6 table: `flush <name>`. -/
def shapeFlush (name : String) : List String := ["flush", name]

/-- §6 table: `rename <from> <to>`. -/
def shapeRename (src dst : String) : List String := ["rename", src, dst]

/-- §6 table: `swap <from> <to>`. -/
def shapeSwap (src dst : String) : List String := ["swap", src, dst]

/-- §6 table: `list <name>`. -/
def shapeList (name : String) : List String := ["list", name]

/-- The error an invocation produces, as a function of the child's
behaviour: no error on a zero exit, otherwise the captured stderr text. -/
def outcomeToError (b : ExecBehavior) : Option String :=
  match b.outcome with
  | .exited 0 => none
  | _ => some b.stderrText

/-! ### Concrete oracles used by witnesses -/

/-- A sample handle. -/
def sampleSet : IPSet := ⟨"/sbin/ipset", []⟩

/-- Child exits 2 and writes "boom" to stderr, "out" to stdout. -/
def execFail2 : List String → ExecBehavior :=
  fun _ => ⟨.exited 2, "out", "boom"⟩

/-- Child exits 0 and prints a header line, a `Members:` line, a member, a
blank line and another member. -/
def execListTwo : List String → ExecBehavior :=
  fun _ => ⟨.exited 0, "Name: foo\nMembers:\n10.0.0.1\n\n10.0.0.2\n", ""⟩

/-- Child exits 0 and prints output with no `Members:` line. -/
def execNoHeader : List String → ExecBehavior :=
  fun _ => ⟨.exited 0, "foo\nbar", ""⟩

/-- Child exits 1 with stderr "boom" after printing one member. -/
def execPartial : List String → ExecBehavior :=
  fun _ => ⟨.exited 1, "Members:\n10.0.0.1\n", "boom"⟩

/-- Child exits 0; the `Members:` line is the last line of stdout. -/
def execHeaderLast : List String → ExecBehavior :=
  fun _ => ⟨.exited 0, "Name: foo\nMembers:", ""⟩

/-- Child never starts. -/
def execNoStart : List String → ExecBehavior :=
  fun _ => ⟨.startFailed, "ignored", "ignored"⟩

/-- Lookup oracle that resolves the binary. -/
def lookFound : String → Except String String :=
  fun _ => .ok "/sbin/ipset"

/-- Lookup oracle that fails. -/
def lookMissing : String → Except String String :=
  fun _ => .error "exec: ipset: executable file not found in PATH"

/-- Child exits 0 with some stdout. -/
def execOk0 : List String → ExecBehavior :=
  fun _ => ⟨.exited 0, "whatever", ""⟩

/-! ### Helper lemmas -/

/-- The error component of `run` is `outcomeToError` of the child's
behaviour at `Path :: args`. -/
theorem run_snd (set : IPSet) (exec : List String → ExecBehavior)
    (args : List String) :
    (set.run exec args).2 = outcomeToError (exec (set.Path :: args)) := by
  unfold IPSet.run outcomeToError
  cases hb : exec (set.Path :: args) with
  | mk o so se =>
    cases o with
    | exited c => cases c <;> rfl
    | startFailed => rfl

/-- The stdout component of `run` is the captured stdout text. -/
theorem run_fst (set : IPSet) (exec : List String → ExecBehavior)
    (args : List String) :
    (set.run exec args).1 = (exec (set.Path :: args)).stdoutText := by
  unfold IPSet.run
  cases hb : exec (set.Path :: args) with
  | mk o so se =>
    cases o with
    | exited c => cases c <;> rfl
    | startFailed => rfl

/-- If no line trims to `"Members:"`, the scan finds nothing. -/
theorem findMembersLine_eq_none (ls : List String)
    (h : ∀ l ∈ ls, trimSpace l ≠ "Members:") : findMembersLine ls = none := by
  induction ls with
  | nil => rfl
  | cons x xs ih =>
    unfold findMembersLine
    rw [if_neg (h x (List.mem_cons_self x xs))]
    rw [ih fun l hl => h l (List.mem_cons_of_mem x hl)]
    rfl

/-- If no line of `pre` trims to `"Members:"` and `m` does, the scan over
`pre ++ m :: rest` stops at index `pre.length`. -/
theorem findMembersLine_append (pre : List String) (m : String)
    (rest : List String) (h : ∀ l ∈ pre, trimSpace l ≠ "Members:")
    (hm : trimSpace m = "Members:") :
    findMembersLine (pre ++ m :: rest) = some pre.length := by
  induction pre with
  | nil => simp [findMembersLine, hm]
  | cons x xs ih =>
    have hx : trimSpace x ≠ "Members:" := h x (List.mem_cons_self x xs)
    have ih' := ih fun l hl => h l (List.mem_cons_of_mem x hl)
    simp only [List.cons_append, findMembersLine, if_neg hx, List.append_eq,
      ih', List.length_cons]
    rfl

/-- `list` written without the intermediate `let`s: the members are the
non-blank lines after the scan index, or `[]` when too few lines exist,
and the error is always the `run` error. -/
theorem list_eq (set : IPSet) (exec : List String → ExecBehavior)
    (name : String) :
    set.list exec name =
      ((if (goSplit (set.run exec ["list", name]).1 '\n').length
            ≤ (findMembersLine (goSplit (set.run exec ["list", name]).1 '\n')).getD 0 + 1
        then []
        else ((goSplit (set.run exec ["list", name]).1 '\n').drop
            ((findMembersLine (goSplit (set.run exec ["list", name]).1 '\n')).getD 0 + 1)).filter
            (fun l => trimSpace l != "")),
       (set.run exec ["list", name]).2) := by
  unfold IPSet.list
  dsimp only
  split <;> rfl

/-- A behaviour whose outcome is a failure to start yields the error
`some ""` (empty captured stderr). -/
theorem outcomeToError_startFailed (b : ExecBehavior)
    (h : b.outcome = ExecOutcome.startFailed) : outcomeToError b = some "" := by
  unfold outcomeToError ExecBehavior.stderrText
  rw [h]

/-- `outcomeToError` is `none` exactly on a zero exit. -/
theorem outcomeToError_eq_none_iff (b : ExecBehavior) :
    outcomeToError b = none ↔ b.outcome = ExecOutcome.exited 0 := by
  unfold outcomeToError
  cases hb : b.outcome with
  | exited c => cases c <;> simp
  | startFailed => simp

/-- Any error `outcomeToError` produces is the captured stderr text. -/
theorem outcomeToError_some (b : ExecBehavior) (msg : String)
    (h : outcomeToError b = some msg) : msg = b.stderrText := by
  unfold outcomeToError at h
  cases hb : b.outcome with
  | exited c =>
    rw [hb] at h
    cases c with
    | zero => exact Option.noConfusion h
    | succ n => exact (Option.some.inj h).symm
  | startFailed =>
    rw [hb] at h
    exact (Option.some.inj h).symm

/-- C1: for every operation (create, add, addUnique, delete, test,
destroy, save, restore, flush, rename, swap, list), and for all values of
its positional arguments and extra options, the argument vector handed to
the subprocess-execution primitive is `set.Path` (argv[0]) followed by
exactly the §6-table shape for that operation, with the caller-supplied
extra options appended verbatim in order: the result of each operation is
determined by the child's behaviour at precisely that vector. -/
theorem c1_argv_shapes (set : IPSet) (exec : List String → ExecBehavior)
    (name typ entry src dst filename : String) (opts : List String) :
    set.Create exec name typ opts
        = outcomeToError (exec (set.Path :: shapeCreate name typ opts))
    ∧ set.Add exec name entry opts
        = outcomeToError (exec (set.Path :: shapeAdd name entry opts))
    ∧ set.AddUnique exec name entry opts
        = outcomeToError (exec (set.Path :: shapeAddUnique name entry opts))
    ∧ set.Delete exec name entry opts
        = outcomeToError (exec (set.Path :: shapeDelete name entry opts))
    ∧ set.Test exec name entry opts
        = outcomeToError (exec (set.Path :: shapeTest name entry opts))
    ∧ set.Destroy exec name
        = outcomeToError (exec (set.Path :: shapeDestroy name))
    ∧ set.Save exec name filename
        = outcomeToError (exec (set.Path :: shapeSave name filename))
    ∧ set.Restore exec filename
        = outcomeToError (exec (set.Path :: shapeRestore filename))
    ∧ set.Flush exec name
        = outcomeToError (exec (set.Path :: shapeFlush name))
    ∧ set.Rename exec src dst
        = outcomeToError (exec (set.Path :: shapeRename src dst))
    ∧ set.Swap exec src dst
        = outcomeToError (exec (set.Path :: shapeSwap src dst))
    ∧ (set.list exec name).2
        = outcomeToError (exec (set.Path :: shapeList name)) :=
  ⟨run_snd set exec _, run_snd set exec _, run_snd set exec _,
   run_snd set exec _, run_snd set exec _, run_snd set exec _,
   run_snd set exec _, run_snd set exec _, run_snd set exec _,
   run_snd set exec _, run_snd set exec _,
   (congrArg Prod.snd (list_eq set exec name)).trans (run_snd set exec _)⟩

/-- C2: an invocation yields an error exactly when the child does not exit
zero (a non-zero exit or a failure to start), independent of stdout; and
any error message is character-for-character the captured stderr text. -/
theorem c2_error_iff_nonzero_exit (set : IPSet)
    (exec : List String → ExecBehavior) (args : List String) :
    ((set.run exec args).2 = none
        ↔ (exec (set.Path :: args)).outcome = ExecOutcome.exited 0)
    ∧ (∀ msg, (set.run exec args).2 = some msg
        → msg = (exec (set.Path :: args)).stderrText) := by
  rw [run_snd]
  exact ⟨outcomeToError_eq_none_iff _, fun msg h => outcomeToError_some _ msg h⟩

/-- Witness for C2: a child exiting 2 with stderr "boom" makes the error
message exactly "boom"; a child exiting 0 gives no error. -/
theorem c2_witness :
    "boom" = (execFail2 ("/sbin/ipset" :: "destroy" :: "s" :: [])).stderrText
    ∧ (sampleSet.run execOk0 ["destroy", "s"]).2 = none := by
  refine ⟨(c2_error_iff_nonzero_exit sampleSet execFail2 ["destroy", "s"]).2
    "boom" (by decide), ?_⟩
  exact (c2_error_iff_nonzero_exit sampleSet execOk0 ["destroy", "s"]).1.mpr
    (by decide)

/-- C3: for all names, entries (including empty strings) and extra option
sequences, `AddUnique` passes the vector with `-exist` immediately after
the positional arguments `name`, `entry` and before the extra options. -/
theorem c3_addunique_exist_position (set : IPSet)
    (exec : List String → ExecBehavior) (name entry : String)
    (opts : List String) :
    set.AddUnique exec name entry opts
      = outcomeToError
          (exec (set.Path :: (["add", name, entry] ++ ["-exist"] ++ opts))) :=
  run_snd set exec _

/-- C4: when stdout splits into some prefix with no `Members:` line,
then a `Members:` line, then exactly the lines of "10.0.0.1\n\n10.0.0.2\n",
the list operation returns `["10.0.0.1", "10.0.0.2"]`: the blank line is
skipped and the order of the remaining lines is preserved. -/
theorem c4_list_two_members (set : IPSet)
    (exec : List String → ExecBehavior) (name : String) (pre : List String)
    (hpre : ∀ l ∈ pre, trimSpace l ≠ "Members:")
    (hsplit : goSplit (set.run exec ["list", name]).1 '\n'
        = pre ++ ["Members:", "10.0.0.1", "", "10.0.0.2", ""]) :
    (set.list exec name).1 = ["10.0.0.1", "10.0.0.2"] := by
  have hfind : findMembersLine
      (pre ++ (["Members:", "10.0.0.1", "", "10.0.0.2", ""] : List String))
      = some pre.length :=
    findMembersLine_append pre "Members:" _ hpre (by decide)
  have hlen : (pre ++ (["Members:", "10.0.0.1", "", "10.0.0.2", ""] :
      List String)).length = pre.length + 5 := by simp
  have hsplit1 : pre ++ (["Members:", "10.0.0.1", "", "10.0.0.2", ""] :
      List String) = (pre ++ ["Members:"]) ++ ["10.0.0.1", "", "10.0.0.2", ""] := by
    simp
  have hlen1 : (pre ++ (["Members:"] : List String)).length = pre.length + 1 := by
    simp
  have hdrop : (pre ++ (["Members:", "10.0.0.1", "", "10.0.0.2", ""] :
      List String)).drop (pre.length + 1) = ["10.0.0.1", "", "10.0.0.2", ""] := by
    rw [hsplit1, ← hlen1, List.drop_left]
  rw [list_eq]
  dsimp only
  rw [hsplit, hfind]
  dsimp only [Option.getD_some]
  rw [if_neg (by rw [hlen]; omega), hdrop]
  decide

/-- Witness for C4 at stdout "Name: foo\nMembers:\n10.0.0.1\n\n10.0.0.2\n". -/
theorem c4_witness :
    (IPSet.list sampleSet execListTwo "foo").1 = ["10.0.0.1", "10.0.0.2"] :=
  c4_list_two_members sampleSet execListTwo "foo" ["Name: foo"]
    (by decide) (by decide)

/-- C5: when no stdout line trims to `"Members:"`, the list operation is
still defined (total) and behaves as if the marker were at line zero: the
members are the non-blank lines strictly after the first line of the split
stdout, so the first line is never a candidate member. -/
theorem c5_no_header_fallback (set : IPSet)
    (exec : List String → ExecBehavior) (name : String)
    (h : ∀ l ∈ goSplit (set.run exec ["list", name]).1 '\n',
        trimSpace l ≠ "Members:") :
    set.list exec name =
      ((if (goSplit (set.run exec ["list", name]).1 '\n').length ≤ 1 then []
        else ((goSplit (set.run exec ["list", name]).1 '\n').drop 1).filter
            (fun l => trimSpace l != "")),
       (set.run exec ["list", name]).2) := by
  rw [list_eq, findMembersLine_eq_none _ h]
  rfl

/-- Witness for C5 at stdout "foo\nbar": no header line, and the first
line "foo" is not a member. -/
theorem c5_witness :
    IPSet.list sampleSet execNoHeader "foo" =
      ((if (goSplit (sampleSet.run execNoHeader ["list", "foo"]).1 '\n').length ≤ 1
        then []
        else ((goSplit (sampleSet.run execNoHeader ["list", "foo"]).1 '\n').drop 1).filter
            (fun l => trimSpace l != "")),
       (sampleSet.run execNoHeader ["list", "foo"]).2) :=
  c5_no_header_fallback sampleSet execNoHeader "foo" (by decide)

/-- C6: the list operation always returns the parsed members together with
the unchanged run error (first conjunct); a partial non-empty member list
can accompany a non-nil error (second conjunct, child exits 1 with stderr
"boom" after printing one member); and when the `Members:` line is the
last line — no lines after the marker — the result is the empty sequence
with exactly the original run error (third conjunct). -/
theorem c6_members_and_error_independent :
    (∀ (set : IPSet) (exec : List String → ExecBehavior) (name : String),
        (set.list exec name).2 = (set.run exec ["list", name]).2)
    ∧ IPSet.list sampleSet execPartial "foo" = (["10.0.0.1"], some "boom")
    ∧ (∀ (set : IPSet) (exec : List String → ExecBehavior) (name : String)
        (pre : List String) (m : String),
        (∀ l ∈ pre, trimSpace l ≠ "Members:") → trimSpace m = "Members:" →
        goSplit (set.run exec ["list", name]).1 '\n' = pre ++ [m] →
        set.list exec name = ([], (set.run exec ["list", name]).2)) := by
  refine ⟨fun set exec name => congrArg Prod.snd (list_eq set exec name),
    by decide, ?_⟩
  intro set exec name pre m hpre hm hsplit
  have hfind : findMembersLine (pre ++ [m]) = some pre.length :=
    findMembersLine_append pre m [] hpre hm
  have hlen : (pre ++ [m]).length = pre.length + 1 := by simp
  rw [list_eq]
  rw [hsplit, hfind]
  dsimp only [Option.getD_some]
  rw [if_pos (by rw [hlen])]

/-- Witness for C6: with stdout "Name: foo\nMembers:" and a zero exit, the
result is the empty member list and no error. -/
theorem c6_witness : IPSet.list sampleSet execHeaderLast "foo" = ([], none) :=
  c6_members_and_error_independent.2.2 sampleSet execHeaderLast "foo"
    ["Name: foo"] "Members:" (by decide) (by decide) (by decide)

/-- C7: `New` either returns a handle wrapping the path the lookup
resolved together with an empty default-options list, or fails with
exactly the lookup ("binary not found") error; a lookup failure is the
only way construction fails, and on failure no handle is produced. -/
theorem c7_new_handle (lookPath : String → Except String String) :
    (∀ p, lookPath "ipset" = .ok p → New lookPath = .ok ⟨p, []⟩)
    ∧ (∀ e, lookPath "ipset" = .error e → New lookPath = .error e)
    ∧ (∀ e, New lookPath = .error e → lookPath "ipset" = .error e)
    ∧ (∀ h, New lookPath = .ok h → ∃ p, lookPath "ipset" = .ok p ∧ h = ⟨p, []⟩) := by
  refine ⟨fun p hp => ?_, fun e he => ?_, fun e he => ?_, fun h hh => ?_⟩
  · unfold New; rw [hp]
  · unfold New; rw [he]
  · unfold New at he
    cases hb : lookPath "ipset" with
    | error e' =>
      rw [hb] at he
      injection he with he'
      rw [he']
    | ok p =>
      rw [hb] at he
      exact Except.noConfusion he
  · unfold New at hh
    cases hb : lookPath "ipset" with
    | error e' =>
      rw [hb] at hh
      exact Except.noConfusion hh
    | ok p =>
      rw [hb] at hh
      injection hh with hh'
      exact ⟨p, rfl, hh'.symm⟩

/-- Witness for C7: a lookup resolving to "/sbin/ipset" yields that handle
with empty options; a failing lookup returns exactly the lookup error. -/
theorem c7_witness :
    New lookFound = .ok ⟨"/sbin/ipset", []⟩
    ∧ New lookMissing
        = .error "exec: ipset: executable file not found in PATH" :=
  ⟨(c7_new_handle lookFound).1 "/sbin/ipset" rfl,
   (c7_new_handle lookMissing).2.1 _ rfl⟩

/-- C8: for every child behaviour, every member the list operation returns
is non-blank after trimming and is verbatim one of the lines of the split
captured stdout. -/
theorem c8_members_nonblank_verbatim (set : IPSet)
    (exec : List String → ExecBehavior) (name : String) (m : String)
    (hm : m ∈ (set.list exec name).1) :
    trimSpace m ≠ "" ∧ m ∈ goSplit (set.run exec ["list", name]).1 '\n' := by
  rw [list_eq] at hm
  dsimp only at hm
  by_cases hc : (goSplit (set.run exec ["list", name]).1 '\n').length
      ≤ (findMembersLine (goSplit (set.run exec ["list", name]).1 '\n')).getD 0 + 1
  · rw [if_pos hc] at hm
    exact absurd hm (List.not_mem_nil m)
  · rw [if_neg hc] at hm
    have h1 := List.mem_filter.mp hm
    refine ⟨?_, List.drop_subset _ _ h1.1⟩
    simpa using h1.2

/-- Witness for C8: the member "10.0.0.1" returned for the stdout of
`execListTwo` is non-blank and is one of the stdout lines. -/
theorem c8_witness :
    trimSpace "10.0.0.1" ≠ ""
    ∧ "10.0.0.1" ∈ goSplit (sampleSet.run execListTwo ["list", "foo"]).1 '\n' :=
  c8_members_nonblank_verbatim sampleSet execListTwo "foo" "10.0.0.1"
    (by decide)

/-- C9: the wrapper holds no mutable state: every operation is a pure
function of the handle that returns no modified handle (so the fields are
identical before and after any call by construction), and the
default-options list is never consulted — every operation, including the
underlying `run`, gives the same result for any two handles sharing a
path, so `Options` never enters a constructed argument vector. -/
theorem c9_options_never_used (p : String) (o o' : List String)
    (exec : List String → ExecBehavior)
    (name typ entry src dst filename : String) (opts args : List String) :
    (IPSet.mk p o).run exec args = (IPSet.mk p o').run exec args
    ∧ (IPSet.mk p o).Create exec name typ opts
        = (IPSet.mk p o').Create exec name typ opts
    ∧ (IPSet.mk p o).Add exec name entry opts
        = (IPSet.mk p o').Add exec name entry opts
    ∧ (IPSet.mk p o).AddUnique exec name entry opts
        = (IPSet.mk p o').AddUnique exec name entry opts
    ∧ (IPSet.mk p o).Delete exec name entry opts
        = (IPSet.mk p o').Delete exec name entry opts
    ∧ (IPSet.mk p o).Test exec name entry opts
        = (IPSet.mk p o').Test exec name entry opts
    ∧ (IPSet.mk p o).Destroy exec name = (IPSet.mk p o').Destroy exec name
    ∧ (IPSet.mk p o).Save exec name filename
        = (IPSet.mk p o').Save exec name filename
    ∧ (IPSet.mk p o).Restore exec filename
        = (IPSet.mk p o').Restore exec filename
    ∧ (IPSet.mk p o).Flush exec name = (IPSet.mk p o').Flush exec name
    ∧ (IPSet.mk p o).Rename exec src dst = (IPSet.mk p o').Rename exec src dst
    ∧ (IPSet.mk p o).Swap exec src dst = (IPSet.mk p o').Swap exec src dst
    ∧ (IPSet.mk p o).list exec name = (IPSet.mk p o').list exec name :=
  ⟨rfl, rfl, rfl, rfl, rfl, rfl, rfl, rfl, rfl, rfl, rfl, rfl, rfl⟩

/-- C10: when the child fails to start, the error is `some ""` — built
solely from the stderr buffer the process never wrote to, so the
start-failure detail is lost (first conjunct); the exit code of a failed
run is likewise discarded: any two non-zero codes with the same streams
give identical errors (second conjunct); and under an always-failing-to-
start oracle every operation returns the empty-message error (third
conjunct). -/
theorem c10_start_failure_empty_error (set : IPSet)
    (exec : List String → ExecBehavior) (args : List String)
    (name typ entry src dst filename : String) (opts : List String) :
    ((exec (set.Path :: args)).outcome = ExecOutcome.startFailed →
        (set.run exec args).2 = some "")
    ∧ (∀ (c c' : Nat) (out errtxt : String), c ≠ 0 → c' ≠ 0 →
        (set.run (fun _ => ⟨.exited c, out, errtxt⟩) args).2
          = (set.run (fun _ => ⟨.exited c', out, errtxt⟩) args).2)
    ∧ ((∀ a, (exec a).outcome = ExecOutcome.startFailed) →
        set.Create exec name typ opts = some ""
        ∧ set.Add exec name entry opts = some ""
        ∧ set.AddUnique exec name entry opts = some ""
        ∧ set.Delete exec name entry opts = some ""
        ∧ set.Test exec name entry opts = some ""
        ∧ set.Destroy exec name = some ""
        ∧ set.Save exec name filename = some ""
        ∧ set.Restore exec filename = some ""
        ∧ set.Flush exec name = some ""
        ∧ set.Rename exec src dst = some ""
        ∧ set.Swap exec src dst = some ""
        ∧ (set.list exec name).2 = some "") := by
  refine ⟨fun h => (run_snd set exec args).trans (outcomeToError_startFailed _ h),
    fun c c' out errtxt hc hc' => ?_, fun hall => ?_⟩
  · rw [run_snd, run_snd]
    cases c with
    | zero => exact absurd rfl hc
    | succ n =>
      cases c' with
      | zero => exact absurd rfl hc'
      | succ n' => rfl
  · refine ⟨?_, ?_, ?_, ?_, ?_, ?_, ?_, ?_, ?_, ?_, ?_, ?_⟩
    all_goals first
      | exact (run_snd set exec _).trans (outcomeToError_startFailed _ (hall _))
      | exact (congrArg Prod.snd (list_eq set exec name)).trans
          ((run_snd set exec _).trans (outcomeToError_startFailed _ (hall _)))

/-- Witness for C10: a never-starting child makes `run` and `Create`
return the empty-message error. -/
theorem c10_witness :
    (sampleSet.run execNoStart ["destroy", "s"]).2 = some ""
    ∧ sampleSet.Create execNoStart "t" "hash:ip" ["timeout", "300"] = some "" := by
  have h := c10_start_failure_empty_error sampleSet execNoStart
    ["destroy", "s"] "t" "hash:ip" "10.0.0.1" "a" "b" "f" ["timeout", "300"]
  exact ⟨h.1 rfl, (h.2.2 (fun a => rfl)).1⟩
